import Mathlib

/-!
Shallow embedding of `src/write_it_template.js` (TrueInfluenceAI).

The file is browser glue: three click handlers (`writeIt`, `startIt`,
`explainMore`) build a JSON payload from the clicked button's data
attributes, POST it via `_callServer`, and render the returned text or an
error into a shared modal; `copyContent` copies the last successful text to
the clipboard and `closeWriter` hides the modal.

We embed each handler as a pure function from its inputs (the clicked
button's state and data attributes, the previous value of the global
`lastContent`, and the outcome of the network round trip) to a trace record
collecting every observable effect: the payload sent, the button state
during and after the request, the final modal body, and the final
`lastContent`.  JavaScript truthiness of the optional string fields
(`d.error`, `d.content`, `btn.dataset.views`, ...) is modelled explicitly:
an absent field and the empty string are falsy.
-/

namespace WriteIt

/-- Template constant `SLUG` (line 2 of the source). -/
def SLUG : String := "__SLUG__"

/-- Template constant `CH` (line 3 of the source). -/
def CH : String := "__CH__"

/-- Template constant `BIGBET` (line 4 of the source): the process-wide
default big-bet value used by `explainMore`. -/
def BIGBET : String := "__BIGBET__"

/-- JavaScript truthiness of an optional string field as used in a
condition: an absent field and the empty string are falsy, every other
string is truthy. -/
def jsTruthy : Option String → Bool
  | none => false
  | some s => !(s == "")

/-- JavaScript `a || b` on an optional string `a` with string default `b`:
yields `b` when `a` is absent or empty, otherwise the string held by `a`. -/
def jsOr (o : Option String) (dflt : String) : String :=
  match o with
  | none => dflt
  | some s => if s = "" then dflt else s

/-- Parsed JSON response of the server: both fields optional
(`{ content?, error? }`). -/
structure ServerResponse where
  error : Option String
  content : Option String
  deriving DecidableEq, Repr

/-- Outcome of the network round trip inside `_callServer`: the `fetch`
rejects (message of the thrown error), `r.json()` fails to parse (message
of the thrown error), or a parsed `ServerResponse` is obtained. -/
inductive NetOutcome where
  | netFail (msg : String)
  | parseFail (msg : String)
  | ok (d : ServerResponse)
  deriving DecidableEq, Repr

/-- Embedding of `_callServer` (lines 18-27): a rejected fetch or a parse
failure propagates as a thrown error; a parsed response with a truthy
`error` field is re-thrown as `Error(d.error)`; otherwise the result is
`d.content || "No content generated."`. -/
def callServer : NetOutcome → Except String String
  | .netFail msg => .error msg
  | .parseFail msg => .error msg
  | .ok d =>
    if jsTruthy d.error then .error (d.error.getD "")
    else .ok (jsOr d.content "No content generated.")

/-- Embedding of `text.replace(/\n/g,"<br>")`: every newline character of
the string is replaced by the marker `<br>`. -/
def brReplace (s : String) : String :=
  String.join (s.data.map (fun c => if c = '\n' then "<br>" else String.singleton c))

/-- Success markup of the modal body (lines 36, 48, 60): the text wrapped
in the content container. -/
def contentDiv (text : String) : String :=
  "<div class=\"wm-content\">" ++ text ++ "</div>"

/-- Error markup of the modal body (lines 37, 49, 61). -/
def errorDiv (msg : String) : String :=
  "<div style=\"color:#f87171\">Error: " ++ msg ++ "</div>"

/-- Observable state of a button: its `disabled` flag and its visible
label (`textContent`). -/
structure ButtonState where
  disabled : Bool
  label : String
  deriving DecidableEq, Repr

/-- Data attributes of the clicked button. `topic` and `type` are read
without a default; `views`, `bigbet` and `label` are optional and pass
through a `||` default at their use sites. -/
structure Dataset where
  type : String
  topic : String
  views : Option String
  bigbet : Option String
  label : Option String
  deriving DecidableEq, Repr

/-- The JSON request body sent to `/api/write/SLUG`.  A field holding
`none` is absent from the serialized object. -/
structure Payload where
  topic : String
  type : String
  card_type : Option String
  views : Option String
  big_bet : Option String
  label : Option String
  deriving DecidableEq, Repr

/-- Trace of one invocation of an action handler: every observable effect
of the call. -/
structure ActionTrace where
  payload : Payload
  busyButton : ButtonState
  openedTitle : String
  finalBody : String
  finalLastContent : String
  finalButton : ButtonState
  deriving DecidableEq, Repr

/-- Embedding of `writeIt` (lines 29-39).  `b` is the state of the clicked
button at invocation (line 31 overwrites it unconditionally), `prevLast`
the value of the global `lastContent` before the call, `net` the outcome
of the network round trip. -/
def writeIt (b : ButtonState) (ds : Dataset) (prevLast : String) (net : NetOutcome) :
    ActionTrace :=
  let views := jsOr ds.views ""
  let payload : Payload :=
    { topic := ds.topic, type := "write", card_type := some ds.type
    , views := some views, big_bet := none, label := none }
  { payload := payload
  , busyButton := { disabled := true, label := "⏳ WRITING..." }
  , openedTitle := "✍️ " ++ ds.topic
  , finalBody :=
      match callServer net with
      | .ok text => contentDiv (brReplace text)
      | .error e => errorDiv e
  , finalLastContent :=
      match callServer net with
      | .ok text => text
      | .error _ => prevLast
  , finalButton := { disabled := false, label := "✍️ WRITE IT" } }

/-- Embedding of `startIt` (lines 41-51); identical to `writeIt` except
for `type:"start"`, the busy label, the modal title and the idle label. -/
def startIt (b : ButtonState) (ds : Dataset) (prevLast : String) (net : NetOutcome) :
    ActionTrace :=
  let views := jsOr ds.views ""
  let payload : Payload :=
    { topic := ds.topic, type := "start", card_type := some ds.type
    , views := some views, big_bet := none, label := none }
  { payload := payload
  , busyButton := { disabled := true, label := "⏳ THINKING..." }
  , openedTitle := "🚀 Getting You Started: " ++ ds.topic
  , finalBody :=
      match callServer net with
      | .ok text => contentDiv (brReplace text)
      | .error e => errorDiv e
  , finalLastContent :=
      match callServer net with
      | .ok text => text
      | .error _ => prevLast
  , finalButton := { disabled := false, label := "🚀 START IT" } }

/-- Embedding of `explainMore` (lines 53-63): payload carries `big_bet`
(defaulting to the constant `BIGBET`) and `label` (defaulting to the empty
string) instead of `card_type`/`views`. -/
def explainMore (b : ButtonState) (ds : Dataset) (prevLast : String) (net : NetOutcome) :
    ActionTrace :=
  let bigbet := jsOr ds.bigbet BIGBET
  let lbl := jsOr ds.label ""
  let payload : Payload :=
    { topic := ds.topic, type := "explain", card_type := none, views := none
    , big_bet := some bigbet, label := some lbl }
  { payload := payload
  , busyButton := { disabled := true, label := "⏳ ANALYZING..." }
  , openedTitle := "🔍 Deep Dive: " ++ lbl
  , finalBody :=
      match callServer net with
      | .ok text => contentDiv (brReplace text)
      | .error e => errorDiv e
  , finalLastContent :=
      match callServer net with
      | .ok text => text
      | .error _ => prevLast
  , finalButton := { disabled := false, label := "🔍 Explain More" } }

/-- Trace of one invocation of `copyContent` (line 8): the string written
to the clipboard, the confirmation label shown on the copy button, the
`setTimeout` delay in milliseconds, and the label after the delay. -/
structure CopyTrace where
  clipboardWrite : String
  confirmLabel : String
  delayMs : Nat
  finalLabel : String
  deriving DecidableEq, Repr

/-- Embedding of `copyContent` (line 8).  `lastContent` is the current
value of the global holder, `b` the state of the copy button at
invocation; the code never reads `b.label`. -/
def copyContent (lastContent : String) (b : ButtonState) : CopyTrace :=
  { clipboardWrite := lastContent
  , confirmLabel := "✅ Copied!"
  , delayMs := 2000
  , finalLabel := "📋 Copy" }

/-- Process-wide page state touched by `closeWriter`: the overlay's
visibility class, the modal title and body, the global `lastContent`, and
the number of requests currently in flight (held by the runtime, not by
any variable of the script). -/
structure PageState where
  overlayActive : Bool
  modalTitle : String
  modalBody : String
  lastContent : String
  inflightRequests : Nat
  deriving DecidableEq, Repr

/-- Embedding of `closeWriter` (line 7): removes the `active` class from
the overlay and touches nothing else. -/
def closeWriter (st : PageState) : PageState :=
  { st with overlayActive := false }

/-- Claim C1: for every action kind (write, start, explain), when the
response parses with a non-empty content string `X` and no truthy error
field, the modal body is set to `X` with every newline character replaced
by `<br>` (wrapped in the content container), and the last-content holder
is set to the raw, non-replaced `X`. -/
theorem c1_success_renders_content (b : ButtonState) (ds : Dataset) (prev X : String)
    (d : ServerResponse) (hc : d.content = some X) (hx : X ≠ "")
    (he : jsTruthy d.error = false) :
    ((writeIt b ds prev (.ok d)).finalBody
        = "<div class=\"wm-content\">"
          ++ String.join (X.data.map (fun c => if c = '\n' then "<br>" else String.singleton c))
          ++ "</div>"
      ∧ (writeIt b ds prev (.ok d)).finalLastContent = X)
    ∧ ((startIt b ds prev (.ok d)).finalBody
        = "<div class=\"wm-content\">"
          ++ String.join (X.data.map (fun c => if c = '\n' then "<br>" else String.singleton c))
          ++ "</div>"
      ∧ (startIt b ds prev (.ok d)).finalLastContent = X)
    ∧ ((explainMore b ds prev (.ok d)).finalBody
        = "<div class=\"wm-content\">"
          ++ String.join (X.data.map (fun c => if c = '\n' then "<br>" else String.singleton c))
          ++ "</div>"
      ∧ (explainMore b ds prev (.ok d)).finalLastContent = X) := by
  have hcall : callServer (.ok d) = .ok X := by
    simp [callServer, he, hc, jsOr, hx]
  refine ⟨⟨?_, ?_⟩, ⟨?_, ?_⟩, ⟨?_, ?_⟩⟩ <;>
    simp [writeIt, startIt, explainMore, hcall, contentDiv, brReplace]

/-- Witness for C1 at a concrete input containing a newline. -/
theorem c1_witness :
    (writeIt ⟨false, "w"⟩ ⟨"idea", "T", none, none, none⟩ "" (.ok ⟨none, some "a\nb"⟩)).finalBody
        = "<div class=\"wm-content\">a<br>b</div>"
      ∧ (writeIt ⟨false, "w"⟩ ⟨"idea", "T", none, none, none⟩ "" (.ok ⟨none, some "a\nb"⟩)).finalLastContent
        = "a\nb" := by
  have h := c1_success_renders_content ⟨false, "w"⟩ ⟨"idea", "T", none, none, none⟩ ""
      "a\nb" ⟨none, some "a\nb"⟩ rfl (by decide) rfl
  exact ⟨h.1.1.trans (by decide), h.1.2⟩

/-- Claim C2: for every action kind, when the parsed response carries a
non-empty error string `E`, the modal body is replaced with the literal
text `Error: E` (with error styling) and the last-content holder keeps its
prior value. -/
theorem c2_error_renders_and_preserves (b : ButtonState) (ds : Dataset) (prev E : String)
    (c : Option String) (hE : E ≠ "") :
    ((writeIt b ds prev (.ok ⟨some E, c⟩)).finalBody
        = "<div style=\"color:#f87171\">Error: " ++ E ++ "</div>"
      ∧ (writeIt b ds prev (.ok ⟨some E, c⟩)).finalLastContent = prev)
    ∧ ((startIt b ds prev (.ok ⟨some E, c⟩)).finalBody
        = "<div style=\"color:#f87171\">Error: " ++ E ++ "</div>"
      ∧ (startIt b ds prev (.ok ⟨some E, c⟩)).finalLastContent = prev)
    ∧ ((explainMore b ds prev (.ok ⟨some E, c⟩)).finalBody
        = "<div style=\"color:#f87171\">Error: " ++ E ++ "</div>"
      ∧ (explainMore b ds prev (.ok ⟨some E, c⟩)).finalLastContent = prev) := by
  have hcall : callServer (.ok ⟨some E, c⟩) = .error E := by
    simp [callServer, jsTruthy, hE]
  refine ⟨⟨?_, ?_⟩, ⟨?_, ?_⟩, ⟨?_, ?_⟩⟩ <;>
    simp [writeIt, startIt, explainMore, hcall, errorDiv]

/-- Witness for C2 at a concrete input (scenario of the spec: the error
string is rate limited, the prior last-content is kept). -/
theorem c2_witness :
    (writeIt ⟨false, "w"⟩ ⟨"idea", "Pricing", none, none, none⟩ "old" (.ok ⟨some "rate limited", none⟩)).finalBody
        = "<div style=\"color:#f87171\">Error: rate limited</div>"
      ∧ (writeIt ⟨false, "w"⟩ ⟨"idea", "Pricing", none, none, none⟩ "old" (.ok ⟨some "rate limited", none⟩)).finalLastContent
        = "old" :=
  (c2_error_renders_and_preserves ⟨false, "w"⟩ ⟨"idea", "Pricing", none, none, none⟩ "old"
    "rate limited" none (by decide)).1
/-- Counterexample to claim C3 as stated: for an element whose label at
invocation is `CUSTOM`, the settled handler re-enables the element but
sets its label to the fixed idle string, not back to the original label. -/
theorem c3_counterexample :
    ((writeIt ⟨false, "CUSTOM"⟩ ⟨"idea", "T", none, none, none⟩ "" (.ok ⟨none, some "hi"⟩)).finalButton.disabled
        = false
      ∧ (writeIt ⟨false, "CUSTOM"⟩ ⟨"idea", "T", none, none, none⟩ "" (.ok ⟨none, some "hi"⟩)).finalButton.label
        = "✍️ WRITE IT")
    ∧ (writeIt ⟨false, "CUSTOM"⟩ ⟨"idea", "T", none, none, none⟩ "" (.ok ⟨none, some "hi"⟩)).finalButton.label
        ≠ "CUSTOM" := by
  decide

/-- Claim C3 as amended: for every action kind and every triggering
element, the element is disabled and given a busy label immediately upon
invocation, and after the request settles — on every outcome — it is
re-enabled and its label is set to the kind's fixed idle label (which
equals the original label exactly when the element started with it). -/
theorem c3_busy_then_fixed_idle (b : ButtonState) (ds : Dataset) (prev : String)
    (net : NetOutcome) :
    ((writeIt b ds prev net).busyButton = ⟨true, "⏳ WRITING..."⟩
      ∧ (writeIt b ds prev net).finalButton = ⟨false, "✍️ WRITE IT"⟩)
    ∧ ((startIt b ds prev net).busyButton = ⟨true, "⏳ THINKING..."⟩
      ∧ (startIt b ds prev net).finalButton = ⟨false, "🚀 START IT"⟩)
    ∧ ((explainMore b ds prev net).busyButton = ⟨true, "⏳ ANALYZING..."⟩
      ∧ (explainMore b ds prev net).finalButton = ⟨false, "🔍 Explain More"⟩) :=
  ⟨⟨rfl, rfl⟩, ⟨rfl, rfl⟩, ⟨rfl, rfl⟩⟩

/-- Counterexample to claim C4 as stated: a response whose error field is
present but empty (falsy) is not treated as a failure — the content is
rendered, because line 25 tests truthiness, not presence. -/
theorem c4_counterexample :
    ((⟨some "", some "hi"⟩ : ServerResponse).error ≠ none
      ∧ callServer (.ok ⟨some "", some "hi"⟩) = .ok "hi")
    ∧ (writeIt ⟨false, "w"⟩ ⟨"idea", "T", none, none, none⟩ "" (.ok ⟨some "", some "hi"⟩)).finalBody
        = "<div class=\"wm-content\">hi</div>" :=
  ⟨⟨by decide, rfl⟩, by decide⟩

/-- Claim C4 as amended: for every response whose error field is present
and non-empty (truthy), the error takes precedence over any content field
and the action fails — the modal renders the error, not the content. -/
theorem c4_truthy_error_precedence (b : ButtonState) (ds : Dataset) (prev E : String)
    (c : Option String) (hE : E ≠ "") :
    callServer (.ok ⟨some E, c⟩) = .error E
    ∧ (writeIt b ds prev (.ok ⟨some E, c⟩)).finalBody = errorDiv E
    ∧ (startIt b ds prev (.ok ⟨some E, c⟩)).finalBody = errorDiv E
    ∧ (explainMore b ds prev (.ok ⟨some E, c⟩)).finalBody = errorDiv E := by
  have hcall : callServer (.ok ⟨some E, c⟩) = .error E := by
    simp [callServer, jsTruthy, hE]
  refine ⟨hcall, ?_, ?_, ?_⟩ <;>
    simp [writeIt, startIt, explainMore, hcall]

/-- Witness for the amended C4: a truthy error wins over a present
content field. -/
theorem c4_witness :
    callServer (.ok ⟨some "boom", some "hi"⟩) = .error "boom"
    ∧ (writeIt ⟨false, "w"⟩ ⟨"idea", "T", none, none, none⟩ "" (.ok ⟨some "boom", some "hi"⟩)).finalBody
        = errorDiv "boom" :=
  ⟨(c4_truthy_error_precedence ⟨false, "w"⟩ ⟨"idea", "T", none, none, none⟩ "" "boom"
      (some "hi") (by decide)).1,
   (c4_truthy_error_precedence ⟨false, "w"⟩ ⟨"idea", "T", none, none, none⟩ "" "boom"
      (some "hi") (by decide)).2.1⟩
/-- Claim C5: for every click, the request body contains exactly the
fields the spec lists for that kind — write/start send topic, type,
card_type and views (views defaulting to the empty string when absent;
the spec's example payload is proved verbatim), explain sends topic,
type, big_bet and label (big_bet defaulting to the process-wide `BIGBET`
when the element carries no big-bet attribute). -/
theorem c5_request_body_fields (b : ButtonState) (ds : Dataset) (prev : String)
    (net : NetOutcome) :
    ((writeIt b ds prev net).payload.topic = ds.topic
      ∧ (writeIt b ds prev net).payload.type = "write"
      ∧ (writeIt b ds prev net).payload.card_type = some ds.type
      ∧ (writeIt b ds prev net).payload.views = some (jsOr ds.views "")
      ∧ (ds.views = none → (writeIt b ds prev net).payload.views = some "")
      ∧ (writeIt b ds prev net).payload.big_bet = none
      ∧ (writeIt b ds prev net).payload.label = none)
    ∧ ((startIt b ds prev net).payload.topic = ds.topic
      ∧ (startIt b ds prev net).payload.type = "start"
      ∧ (startIt b ds prev net).payload.card_type = some ds.type
      ∧ (startIt b ds prev net).payload.views = some (jsOr ds.views "")
      ∧ (ds.views = none → (startIt b ds prev net).payload.views = some "")
      ∧ (startIt b ds prev net).payload.big_bet = none
      ∧ (startIt b ds prev net).payload.label = none)
    ∧ ((explainMore b ds prev net).payload.topic = ds.topic
      ∧ (explainMore b ds prev net).payload.type = "explain"
      ∧ (explainMore b ds prev net).payload.big_bet = some (jsOr ds.bigbet BIGBET)
      ∧ (ds.bigbet = none → (explainMore b ds prev net).payload.big_bet = some BIGBET)
      ∧ (explainMore b ds prev net).payload.label = some (jsOr ds.label "")
      ∧ (explainMore b ds prev net).payload.card_type = none
      ∧ (explainMore b ds prev net).payload.views = none)
    ∧ (writeIt b ⟨"idea", "Launch Plan", none, none, none⟩ prev net).payload
        = ⟨"Launch Plan", "write", some "idea", some "", none, none⟩ := by
  refine ⟨⟨rfl, rfl, rfl, rfl, fun h => ?_, rfl, rfl⟩,
          ⟨rfl, rfl, rfl, rfl, fun h => ?_, rfl, rfl⟩,
          ⟨rfl, rfl, rfl, fun h => ?_, rfl, rfl, rfl⟩, rfl⟩ <;>
    simp [writeIt, startIt, explainMore, h, jsOr]

/-- Witness for C5: the defaults fire on elements with no views and no
big-bet attribute. -/
theorem c5_witness :
    (writeIt ⟨false, "w"⟩ ⟨"idea", "Launch Plan", none, none, none⟩ "" (.ok ⟨none, none⟩)).payload.views
        = some ""
    ∧ (explainMore ⟨false, "w"⟩ ⟨"idea", "Pricing", none, none, some "Why it works"⟩ "" (.ok ⟨none, none⟩)).payload.big_bet
        = some BIGBET := by
  obtain ⟨⟨-, -, -, -, hw, -, -⟩, -, ⟨-, -, -, hb, -, -, -⟩, -⟩ :=
    c5_request_body_fields ⟨false, "w"⟩ ⟨"idea", "Launch Plan", none, none, none⟩ ""
      (.ok ⟨none, none⟩)
  obtain ⟨-, -, ⟨-, -, -, hb2, -, -, -⟩, -⟩ :=
    c5_request_body_fields ⟨false, "w"⟩ ⟨"idea", "Pricing", none, none, some "Why it works"⟩ ""
      (.ok ⟨none, none⟩)
  exact ⟨hw rfl, hb2 rfl⟩

/-- Claim C6: for every action kind, when the parsed response carries
neither a content field nor an error field, the modal body is the content
container holding exactly the literal fallback text
`No content generated.` (which is also stored as last-content). -/
theorem c6_fallback_literal (b : ButtonState) (ds : Dataset) (prev : String) :
    ((writeIt b ds prev (.ok ⟨none, none⟩)).finalBody
        = "<div class=\"wm-content\">No content generated.</div>"
      ∧ (writeIt b ds prev (.ok ⟨none, none⟩)).finalLastContent = "No content generated.")
    ∧ ((startIt b ds prev (.ok ⟨none, none⟩)).finalBody
        = "<div class=\"wm-content\">No content generated.</div>"
      ∧ (startIt b ds prev (.ok ⟨none, none⟩)).finalLastContent = "No content generated.")
    ∧ ((explainMore b ds prev (.ok ⟨none, none⟩)).finalBody
        = "<div class=\"wm-content\">No content generated.</div>"
      ∧ (explainMore b ds prev (.ok ⟨none, none⟩)).finalLastContent = "No content generated.") := by
  have hcall : callServer (.ok ⟨none, none⟩) = .ok "No content generated." := rfl
  have hbr : brReplace "No content generated." = "No content generated." := by decide
  refine ⟨⟨?_, ?_⟩, ⟨?_, ?_⟩, ⟨?_, ?_⟩⟩ <;>
    simp [writeIt, startIt, explainMore, hcall, hbr, contentDiv]
/-- Claim C7: the three failure kinds — a rejected/throwing network
request, a response body that fails to parse, and a parsed response with a
non-empty error field — reach the same single catch path for every action
kind: the whole trace of a fetch rejection equals the trace of a parse
failure with the same message, the modal body is the styled `Error:`
rendering of the message, and a truthy-error response with message `E`
produces the very same trace as a transport failure with message `E`
(content ignored, no retry, no distinction between the kinds). -/
theorem c7_unified_failure_path (b : ButtonState) (ds : Dataset) (prev m E : String)
    (c : Option String) (hE : E ≠ "") :
    (writeIt b ds prev (.netFail m) = writeIt b ds prev (.parseFail m)
      ∧ (writeIt b ds prev (.netFail m)).finalBody
          = "<div style=\"color:#f87171\">Error: " ++ m ++ "</div>"
      ∧ writeIt b ds prev (.netFail E) = writeIt b ds prev (.ok ⟨some E, c⟩))
    ∧ (startIt b ds prev (.netFail m) = startIt b ds prev (.parseFail m)
      ∧ (startIt b ds prev (.netFail m)).finalBody
          = "<div style=\"color:#f87171\">Error: " ++ m ++ "</div>"
      ∧ startIt b ds prev (.netFail E) = startIt b ds prev (.ok ⟨some E, c⟩))
    ∧ (explainMore b ds prev (.netFail m) = explainMore b ds prev (.parseFail m)
      ∧ (explainMore b ds prev (.netFail m)).finalBody
          = "<div style=\"color:#f87171\">Error: " ++ m ++ "</div>"
      ∧ explainMore b ds prev (.netFail E) = explainMore b ds prev (.ok ⟨some E, c⟩)) := by
  have hcall : callServer (.ok ⟨some E, c⟩) = .error E := by
    simp [callServer, jsTruthy, hE]
  refine ⟨⟨?_, ?_, ?_⟩, ⟨?_, ?_, ?_⟩, ⟨?_, ?_, ?_⟩⟩ <;>
    simp [writeIt, startIt, explainMore, hcall, callServer, errorDiv, jsTruthy, hE]

/-- Witness for C7 at concrete failure messages. -/
theorem c7_witness :
    (writeIt ⟨false, "w"⟩ ⟨"idea", "T", none, none, none⟩ "old" (.netFail "net down")).finalBody
        = "<div style=\"color:#f87171\">Error: net down</div>"
      ∧ writeIt ⟨false, "w"⟩ ⟨"idea", "T", none, none, none⟩ "old" (.netFail "boom")
        = writeIt ⟨false, "w"⟩ ⟨"idea", "T", none, none, none⟩ "old" (.ok ⟨some "boom", some "hi"⟩) :=
  ⟨(c7_unified_failure_path ⟨false, "w"⟩ ⟨"idea", "T", none, none, none⟩ "old" "net down"
      "boom" (some "hi") (by decide)).1.2.1,
   (c7_unified_failure_path ⟨false, "w"⟩ ⟨"idea", "T", none, none, none⟩ "old" "net down"
      "boom" (some "hi") (by decide)).1.2.2⟩

/-- Counterexample to claim C8 as stated: after the fixed delay the copy
button's label is set to the fixed idle string, not back to the label the
button carried at invocation. -/
theorem c8_counterexample :
    ((copyContent "text" ⟨false, "COPY ME"⟩).clipboardWrite = "text"
      ∧ (copyContent "text" ⟨false, "COPY ME"⟩).delayMs = 2000
      ∧ (copyContent "text" ⟨false, "COPY ME"⟩).finalLabel = "📋 Copy")
    ∧ (copyContent "text" ⟨false, "COPY ME"⟩).finalLabel ≠ "COPY ME" := by
  decide

/-- Claim C8 as amended: copyContent writes exactly the last-content
holder's current value (in particular, the text stored by a successful
prior action) to the clipboard, shows the confirmation label, and after
the fixed 2-second (2000 ms) delay sets the button label to the fixed
text `📋 Copy` — which equals the original label exactly when the button
started with that label. -/
theorem c8_copy_fixed_revert (last : String) (b : ButtonState) :
    (copyContent last b).clipboardWrite = last
    ∧ (copyContent last b).confirmLabel = "✅ Copied!"
    ∧ (copyContent last b).delayMs = 2000
    ∧ (copyContent last b).finalLabel = "📋 Copy"
    ∧ ∀ (bw : ButtonState) (ds : Dataset) (d : ServerResponse),
        (copyContent ((writeIt bw ds last (.ok d)).finalLastContent) b).clipboardWrite
          = (writeIt bw ds last (.ok d)).finalLastContent :=
  ⟨rfl, rfl, rfl, rfl, fun _ _ _ => rfl⟩

/-- Claim C9: closeWriter only removes the active/visible state from the
shared modal — the modal title, the modal body, the last-content holder
and the in-flight requests are all left untouched. -/
theorem c9_close_is_pure_visibility (st : PageState) :
    (closeWriter st).overlayActive = false
    ∧ (closeWriter st).modalTitle = st.modalTitle
    ∧ (closeWriter st).modalBody = st.modalBody
    ∧ (closeWriter st).lastContent = st.lastContent
    ∧ (closeWriter st).inflightRequests = st.inflightRequests :=
  ⟨rfl, rfl, rfl, rfl, rfl⟩

/-- Claim C10: a response whose content field is present but equal to the
empty string (with no truthy error) is still a success, and the fallback
literal `No content generated.` — not the empty string — is stored as
last-content and rendered, because line 26 tests truthiness, not
presence. -/
theorem c10_empty_content_fallback (b : ButtonState) (ds : Dataset) (prev : String)
    (err : Option String) (he : jsTruthy err = false) :
    callServer (.ok ⟨err, some ""⟩) = .ok "No content generated."
    ∧ ((writeIt b ds prev (.ok ⟨err, some ""⟩)).finalLastContent = "No content generated."
      ∧ (writeIt b ds prev (.ok ⟨err, some ""⟩)).finalBody
          = "<div class=\"wm-content\">No content generated.</div>")
    ∧ ((startIt b ds prev (.ok ⟨err, some ""⟩)).finalLastContent = "No content generated."
      ∧ (startIt b ds prev (.ok ⟨err, some ""⟩)).finalBody
          = "<div class=\"wm-content\">No content generated.</div>")
    ∧ ((explainMore b ds prev (.ok ⟨err, some ""⟩)).finalLastContent = "No content generated."
      ∧ (explainMore b ds prev (.ok ⟨err, some ""⟩)).finalBody
          = "<div class=\"wm-content\">No content generated.</div>") := by
  have hcall : callServer (.ok ⟨err, some ""⟩) = .ok "No content generated." := by
    simp [callServer, he, jsOr]
  have hbr : brReplace "No content generated." = "No content generated." := by decide
  refine ⟨hcall, ⟨?_, ?_⟩, ⟨?_, ?_⟩, ⟨?_, ?_⟩⟩ <;>
    simp [writeIt, startIt, explainMore, hcall, hbr, contentDiv]

/-- Witness for C10 with an absent error field. -/
theorem c10_witness :
    callServer (.ok ⟨none, some ""⟩) = .ok "No content generated."
    ∧ (writeIt ⟨false, "w"⟩ ⟨"idea", "T", none, none, none⟩ "old" (.ok ⟨none, some ""⟩)).finalLastContent
        = "No content generated." :=
  ⟨(c10_empty_content_fallback ⟨false, "w"⟩ ⟨"idea", "T", none, none, none⟩ "old" none rfl).1,
   (c10_empty_content_fallback ⟨false, "w"⟩ ⟨"idea", "T", none, none, none⟩ "old" none rfl).2.1.1⟩

end WriteIt
